import Mathlib

/-!
Verification development for the live-trading execution layer
(src/trading/types.py, risk_controls.py, base_trader.py, futu_trader.py,
live_executor.py, src/live_main.py).

Conventions of the shallow embedding:
* Python floats are modelled as `ℚ`; Python ints as `ℤ`.
* Calendar dates and timestamps are modelled as `ℤ` (a day / instant number);
  `datetime.now()` becomes an explicit parameter of the functions that read it.
* Fallible Python code (code that can raise) is modelled in `Except PyExc`.
* The external Futu SDK (quote and trade contexts) is modelled as a
  `BrokerEnv` environment; broker order placement is additionally traced so
  that "no order was placed with the broker" is a provable statement.
* String formatting: Python `f"{x:.2f}"` / `f"{x:.1%}"` are implemented as
  `fmtMoney2` / `fmtPct1` (round-half-even, as Python formats); the `str()`
  rendering of floats inside a few diagnostic messages (which no property
  depends on) is rendered via `ratStr`.
-/

/-- Python exceptions that the embedded code can raise. -/
inductive PyExc where
  | attributeError (name : String) : PyExc
  | other (msg : String) : PyExc
deriving DecidableEq, Repr

/-- Rendering of an exception as placed into error log entries (`str(e)`). -/
def PyExc.str : PyExc → String
  | .attributeError name => "AttributeError: " ++ name
  | .other msg => msg

/-- Round half to even, as Python float formatting does at a tie. -/
def pyRoundHalfEven (x : ℚ) : ℤ :=
  let f : ℤ := ⌊x⌋
  let r : ℚ := x - f
  if r < 1/2 then f
  else if r > 1/2 then f + 1
  else if f % 2 = 0 then f else f + 1

/-- Left-pad a numeral string with zeros to the given length. -/
def padZeros (len : Nat) (s : String) : String :=
  String.mk (List.replicate (len - s.length) '0') ++ s

/-- Python `f"{x:.2f}"`. -/
def fmtMoney2 (x : ℚ) : String :=
  let n := pyRoundHalfEven (x * 100)
  if n < 0 then
    "-" ++ toString ((-n) / 100) ++ "." ++ padZeros 2 (toString ((-n) % 100))
  else
    toString (n / 100) ++ "." ++ padZeros 2 (toString (n % 100))

/-- Python `f"{x:.1%}"`. -/
def fmtPct1 (x : ℚ) : String :=
  let n := pyRoundHalfEven (x * 1000)
  if n < 0 then
    "-" ++ toString ((-n) / 10) ++ "." ++ toString ((-n) % 10) ++ "%"
  else
    toString (n / 10) ++ "." ++ toString (n % 10) ++ "%"

/-- The `str()` rendering of a rational in diagnostic messages whose exact text no
claim depends on (Python would print the float repr). -/
def ratStr (x : ℚ) : String := toString x

/-- Python `int(x)` on a float: truncation toward zero. -/
def pyTrunc (x : ℚ) : ℤ :=
  if x ≥ 0 then ⌊x⌋ else -⌊-x⌋

/-- Python `a or b` for an optional float `a` (falsy when `None` or `0.0`). -/
def pyOrQ (a : Option ℚ) (b : ℚ) : ℚ :=
  match a with
  | none => b
  | some x => if x = 0 then b else x

/-- Python truthiness of an optional float (`None` and `0.0` are falsy). -/
def pyTruthy : Option ℚ → Bool
  | none => false
  | some x => x ≠ 0

/-! ## Enumerations (src/trading/types.py) -/

/-- Embeds `TradeSide` -/
inductive TradeSide where
  | BUY | SELL
deriving DecidableEq, Repr

/-- The Python expression `order.side.value`. `TradeOrder.Config` sets
`use_enum_values = True` (types.py:55-56), so pydantic stores the value of the
enum member — a plain `str` such as `"BUY"` — in the model, and a plain `str`
has no `value` attribute: this read raises `AttributeError`. (Comparisons like
`order.side == TradeSide.BUY` still work, because `TradeSide` is a `str` enum
and the member equals its value; the embedding therefore keeps `side` as the
enumeration standing for that stored string, and models only the `.value`
attribute read as raising.) -/
def TradeSide.pyValue (_s : TradeSide) : Except PyExc String :=
  .error (.attributeError "value")

/-- Embeds `OrderType` -/
inductive OrderType where
  | MARKET | LIMIT | STOP | STOP_LIMIT
deriving DecidableEq, Repr

/-- Embeds `OrderStatus` -/
inductive OrderStatus where
  | PENDING | SUBMITTED | FILLED | PARTIALLY_FILLED | CANCELLED | REJECTED | FAILED
deriving DecidableEq, Repr

/-- Embeds `MarketType` -/
inductive MarketType where
  | HK | US | CN
deriving DecidableEq, Repr

/-- Embeds `ActionLiteral` — the decision actions `"buy" | "sell" | "short" | "cover" | "hold"`
(also mirrors the backtesting `Action` enum, whose values are the same strings). -/
inductive TradeAction where
  | buy | sell | short | cover | hold
deriving DecidableEq, Repr

/-- Embeds `RiskLevel` (src/trading/risk_controls.py) -/
inductive RiskLevel where
  | LOW | MEDIUM | HIGH | CRITICAL
deriving DecidableEq, Repr

/-! ## Data model (src/trading/types.py) -/

/-- Embeds `TradeOrder` (pydantic model; `quantity` is validated `> 0` at
construction, and every construction site in the embedded code is guarded by
`quantity > 0`). Because of `use_enum_values` the enum-typed fields hold plain
strings at runtime; `side` here stands for that stored string, and the raising
`.value` attribute read on it is `TradeSide.pyValue`. -/
structure TradeOrder where
  symbol : String
  side : TradeSide
  quantity : ℤ
  order_type : OrderType := OrderType.MARKET
  price : Option ℚ := none
  stop_price : Option ℚ := none
  market : MarketType := MarketType.HK
  time_in_force : String := "DAY"
deriving DecidableEq, Repr

/-- Embeds `TradeResult` -/
structure TradeResult where
  order_id : String
  symbol : String
  side : TradeSide
  quantity : ℤ
  filled_quantity : ℤ := 0
  avg_price : Option ℚ := none
  status : OrderStatus
  submit_time : ℤ
  update_time : Option ℤ := none
  error_msg : Option String := none
  commission : Option ℚ := some 0
deriving DecidableEq, Repr

/-- Embeds `TradeConfig` — the fields consumed by the embedded code paths. -/
structure TradeConfig where
  dry_run : Bool := true
  enable_short_selling : Bool := false
  max_order_value : ℚ := 50000
deriving DecidableEq, Repr

/-- Embeds `AccountInfo` — declared as a `TypedDict` (src/trading/types.py:102), so a
value of this shape is, at runtime, a plain `dict` with exactly these string
keys. Note there is no `net_liquidation` field. -/
structure AccountInfo where
  account_id : String
  total_assets : ℚ
  cash : ℚ
  market_value : ℚ
  unrealized_pnl : ℚ
  realized_pnl : ℚ
  buying_power : ℚ
deriving DecidableEq, Repr

/-- Python attribute access `account_info.<name>` on an `AccountInfo` value.
Because `AccountInfo` is a `TypedDict`, the value is a plain `dict`: its fields
are reachable only by subscript (`account_info["cash"]`), and attribute access
raises `AttributeError` for every name. -/
def AccountInfo.attr (_a : AccountInfo) (name : String) : Except PyExc ℚ :=
  .error (.attributeError name)

/-- Embeds `Position` (`TypedDict`; the embedded code only ever reads it by subscript,
which is well defined on a dict, so it is modelled as a plain structure). -/
structure Position where
  symbol : String
  quantity : ℤ
  avg_cost : ℚ
  market_value : ℚ
  unrealized_pnl : ℚ
  market_price : ℚ
deriving DecidableEq, Repr

/-! ## Risk manager (src/trading/risk_controls.py) -/

/-- The `self.limits` dict built in `RiskManager.__init__` (risk_controls.py:76). -/
structure RiskLimits where
  max_position_size : ℚ := 100000
  max_portfolio_value : ℚ := 1000000
  max_daily_loss : ℚ := 10000
  max_position_concentration : ℚ := 1/5
  max_trades_per_day : ℤ := 100
  min_cash_reserve : ℚ := 10000
deriving DecidableEq, Repr

/-- An executed-trade record appended by `record_trade`. -/
structure TradeRecord where
  timestamp : ℤ
  symbol : String
  side : TradeSide
  quantity : ℤ
  price : ℚ
deriving DecidableEq, Repr

/-- A risk event appended by `_log_risk_event`. Event timestamps are modelled
at day granularity (no property reads them). -/
structure RiskEvent where
  timestamp : ℤ
  order : TradeOrder
  message : String
  risk_level : RiskLevel
deriving DecidableEq, Repr

/-- Mutable state of a `RiskManager` instance (risk_controls.py:70-93). -/
structure RiskManager where
  limits : RiskLimits
  daily_pnl : ℚ := 0
  daily_trades : ℤ := 0
  trade_history : List TradeRecord := []
  last_reset : ℤ
  risk_events : List RiskEvent := []
  circuit_breaker_active : Bool := false
deriving DecidableEq, Repr

namespace RiskManager

/-- Embeds `RiskManager._check_daily_reset` (risk_controls.py:284-293);
`today` is `datetime.now().date()`. -/
def _check_daily_reset (rm : RiskManager) (today : ℤ) : RiskManager :=
  if rm.last_reset < today then
    { rm with daily_pnl := 0, daily_trades := 0,
              circuit_breaker_active := false, last_reset := today }
  else rm

/-- Embeds `RiskManager._check_position_size` (risk_controls.py:172-191). -/
def _check_position_size (rm : RiskManager) (order : TradeOrder) :
    Bool × RiskLevel × String :=
  let position_value : ℚ :=
    match order.price with
    | some p => if p = 0 then order.quantity * 100 else order.quantity * p
    | none => order.quantity * 100
  let max_size := rm.limits.max_position_size
  if position_value > max_size then
    (false, RiskLevel.CRITICAL,
      "Position size $" ++ fmtMoney2 position_value ++ " exceeds limit $" ++ fmtMoney2 max_size)
  else if position_value > max_size * (4/5) then
    (true, RiskLevel.HIGH, "Position size approaching limit")
  else
    (true, RiskLevel.LOW, "Position size OK")

/-- Embeds `RiskManager._check_cash_reserve` (risk_controls.py:193-211). For BUY
orders the check reads `account_info.cash` — attribute access on a dict —
which raises `AttributeError`. -/
def _check_cash_reserve (rm : RiskManager) (order : TradeOrder)
    (account_info : AccountInfo) : Except PyExc (Bool × RiskLevel × String) :=
  if order.side = TradeSide.SELL then
    .ok (true, RiskLevel.LOW, "Sell order - increases cash")
  else
    let required_cash : ℚ := order.quantity * (pyOrQ order.price 0)
    match account_info.attr "cash" with
    | .error e => .error e
    | .ok cash =>
      let remaining_cash := cash - required_cash
      let min_reserve := rm.limits.min_cash_reserve
      if remaining_cash < min_reserve then
        .ok (false, RiskLevel.CRITICAL,
          "Insufficient cash reserve: $" ++ fmtMoney2 remaining_cash ++ " < $" ++ fmtMoney2 min_reserve)
      else if remaining_cash < min_reserve * (3/2) then
        .ok (true, RiskLevel.MEDIUM, "Cash reserve low")
      else
        .ok (true, RiskLevel.LOW, "Cash reserve OK")

/-- Embeds `RiskManager._check_daily_loss` (risk_controls.py:213-226); sets
`circuit_breaker_active` as a side effect when the loss limit is breached. -/
def _check_daily_loss (rm : RiskManager) :
    (Bool × RiskLevel × String) × RiskManager :=
  let max_loss := rm.limits.max_daily_loss
  if rm.daily_pnl < -max_loss then
    ((false, RiskLevel.CRITICAL,
        "Daily loss limit exceeded: $" ++ fmtMoney2 |rm.daily_pnl|),
     { rm with circuit_breaker_active := true })
  else if rm.daily_pnl < -max_loss * (4/5) then
    ((true, RiskLevel.HIGH, "Approaching daily loss limit"), rm)
  else
    ((true, RiskLevel.LOW, "Daily P&L within limits"), rm)

/-- Embeds `RiskManager._check_trading_frequency` (risk_controls.py:228-237). -/
def _check_trading_frequency (rm : RiskManager) : Bool × RiskLevel × String :=
  let max_trades := rm.limits.max_trades_per_day
  if rm.daily_trades ≥ max_trades then
    (false, RiskLevel.CRITICAL,
      "Daily trade limit reached: " ++ toString rm.daily_trades)
  else if (rm.daily_trades : ℚ) ≥ (max_trades : ℚ) * (9/10) then
    (true, RiskLevel.MEDIUM, "Approaching daily trade limit")
  else
    (true, RiskLevel.LOW, "Trading frequency OK")

/-- Body of `_check_position_concentration` from line 251 onward (the `try`
block, risk_controls.py:251-282), as a function of the already-read
`portfolio_value`. On conforming inputs nothing inside the block raises, so
the block is total and the `except` fallback is unreachable. -/
def concentrationBody (rm : RiskManager) (order : TradeOrder)
    (positions : List Position) (portfolio_value : ℚ) :
    Bool × RiskLevel × String :=
  let current_position : Position :=
    (positions.find? (fun p => p.symbol = order.symbol)).getD
      { symbol := order.symbol, quantity := 0, avg_cost := 0,
        market_value := 0, unrealized_pnl := 0, market_price := 0 }
  let new_quantity : ℤ :=
    if order.side = TradeSide.BUY then current_position.quantity + order.quantity
    else current_position.quantity - order.quantity
  let estimated_price : ℚ :=
    pyOrQ order.price
      (current_position.market_value / (max current_position.quantity 1 : ℤ))
  let new_position_value : ℚ := |(new_quantity : ℚ) * estimated_price|
  let concentration : ℚ :=
    if portfolio_value > 0 then new_position_value / portfolio_value else 0
  let limit := rm.limits.max_position_concentration
  if concentration > limit then
    (false, RiskLevel.HIGH,
      "Position concentration " ++ fmtPct1 concentration ++
        " exceeds limit " ++ fmtPct1 limit)
  else if concentration > limit * (4/5) then
    (true, RiskLevel.MEDIUM, "Position concentration approaching limit")
  else
    (true, RiskLevel.LOW, "Position concentration OK")

/-- Embeds `RiskManager._check_position_concentration` (risk_controls.py:239-282).
The very first statement, `portfolio_value = account_info.net_liquidation`
(line 246), is attribute access on a dict — and `net_liquidation` is not even
a declared key of `AccountInfo` — and it sits *before* the `try`, so the
`except` handler cannot catch the resulting `AttributeError`. -/
def _check_position_concentration (rm : RiskManager) (order : TradeOrder)
    (account_info : AccountInfo) (positions : List Position) :
    Except PyExc (Bool × RiskLevel × String) :=
  match account_info.attr "net_liquidation" with
  | .error e => .error e
  | .ok portfolio_value =>
    if portfolio_value ≤ 0 then
      .ok (true, RiskLevel.LOW, "No portfolio value to check")
    else
      .ok (concentrationBody rm order positions portfolio_value)

/-- The aggregation loop of `validate_order` (risk_controls.py:143-170):
fold the five check results, recording failures as risk events and computing
the aggregate risk level with the source cascade. -/
def aggregateChecks (rm : RiskManager) (today : ℤ) (order : TradeOrder)
    (checks : List (Bool × RiskLevel × String)) :
    (Bool × String × RiskLevel) × RiskManager :=
  let step :
      (RiskLevel × List String × RiskManager) → (Bool × RiskLevel × String) →
      (RiskLevel × List String × RiskManager) := fun (maxL, failed, rm) c =>
    let (is_valid, risk_level, message) := c
    let (failed, rm) :=
      if is_valid then (failed, rm)
      else (failed ++ [message],
            { rm with risk_events := rm.risk_events ++
                [{ timestamp := today, order := order, message := message,
                   risk_level := risk_level }] })
    let maxL :=
      if risk_level = RiskLevel.CRITICAL then RiskLevel.CRITICAL
      else if risk_level = RiskLevel.HIGH ∧ maxL ≠ RiskLevel.CRITICAL then RiskLevel.HIGH
      else if risk_level = RiskLevel.MEDIUM ∧ maxL = RiskLevel.LOW then RiskLevel.MEDIUM
      else maxL
    (maxL, failed, rm)
  let (max_risk_level, failed_checks, rm) :=
    checks.foldl step (RiskLevel.LOW, [], rm)
  if failed_checks ≠ [] then
    ((false, String.intercalate "; " failed_checks, max_risk_level), rm)
  else
    ((true, "All risk checks passed", max_risk_level), rm)

/-- Embeds `validate_order` after the daily-reset call (risk_controls.py:130-170).
The five checks are evaluated eagerly, in source order, when the `checks` list
is built; an exception raised by one of them aborts the call (state mutations
already made — e.g. the breaker set by the daily-loss check — persist). -/
def validate_order_after (rm : RiskManager) (today : ℤ) (order : TradeOrder)
    (account_info : AccountInfo) (positions : List Position) :
    Except PyExc (Bool × String × RiskLevel) × RiskManager :=
  if rm.circuit_breaker_active then
    (.ok (false, "Circuit breaker active - trading halted", RiskLevel.CRITICAL), rm)
  else
    let c1 := rm._check_position_size order
    match rm._check_cash_reserve order account_info with
    | .error e => (.error e, rm)
    | .ok c2 =>
      let (c3, rm) := rm._check_daily_loss
      let c4 := rm._check_trading_frequency
      match rm._check_position_concentration order account_info positions with
      | .error e => (.error e, rm)
      | .ok c5 =>
        let (res, rm) := aggregateChecks rm today order [c1, c2, c3, c4, c5]
        (.ok res, rm)

/-- Embeds `RiskManager.validate_order` (risk_controls.py:110-170): first the lazy
daily reset, then the circuit-breaker gate and the five checks. -/
def validate_order (rm : RiskManager) (today : ℤ) (order : TradeOrder)
    (account_info : AccountInfo) (positions : List Position) :
    Except PyExc (Bool × String × RiskLevel) × RiskManager :=
  validate_order_after (rm._check_daily_reset today) today order account_info positions

/-- Embeds `RiskManager.record_trade` (risk_controls.py:295-307). -/
def record_trade (rm : RiskManager) (order : TradeOrder) (executed_qty : ℤ)
    (execution_price : ℚ) (now : ℤ) : RiskManager :=
  { rm with
    daily_trades := rm.daily_trades + 1,
    trade_history := rm.trade_history ++
      [{ timestamp := now, symbol := order.symbol, side := order.side,
         quantity := executed_qty, price := execution_price }] }

/-- Embeds `RiskManager.update_pnl` (risk_controls.py:309-315). -/
def update_pnl (rm : RiskManager) (pnl_change : ℚ) : RiskManager :=
  let rm := { rm with daily_pnl := rm.daily_pnl + pnl_change }
  if rm.daily_pnl < -rm.limits.max_daily_loss then
    { rm with circuit_breaker_active := true }
  else rm

end RiskManager

/-! ## Broker environment and trader (src/trading/base_trader.py, futu_trader.py) -/

/-- The external Futu SDK as seen through the embedded code paths:
* `marketPrice s` — the quote the `get_market_price` body produces for the
  already-converted symbol `s` (`none` covers "no quote context", subscribe or
  snapshot failure, and empty data, all of which that body degrades to `None`);
* `accountInfo` / `positions` — what the live-mode (non-dry-run) bodies of
  `get_account_info` / `get_positions` produce (the Futu queries of
  futu_trader.py:139-191 / 207-245, including their demo-data fallbacks);
* `placeOrder` — the whole real-execution branch of `submit_order`
  (futu_trader.py:304-446); the claims settled here only ever need to know
  whether this branch is reached, so it is abstracted as one function. -/
structure BrokerEnv where
  marketPrice : String → Option ℚ
  accountInfo : Option AccountInfo
  positions : List Position
  placeOrder : TradeOrder → TradeResult

/-- State of a trader instance (`BaseTrader.__init__`, base_trader.py:22-26). -/
structure Trader where
  config : TradeConfig
  is_connected : Bool := false
  trade_history : List TradeResult := []

namespace Trader

/-- Python `str.isdigit`: true iff the string is nonempty and all characters
are digits. -/
def pyIsdigit (symbol : String) : Bool :=
  !symbol.data.isEmpty && symbol.data.all Char.isDigit

/-- Embeds `BaseTrader._detect_market` (base_trader.py:139-146). -/
def _detect_market (symbol : String) : MarketType :=
  if pyIsdigit symbol ∧ symbol.data.length = 5 then MarketType.HK
  else if pyIsdigit symbol ∧ symbol.data.length = 6 then MarketType.CN
  else MarketType.US

/-- Embeds `FutuTrader._convert_to_futu_symbol` (futu_trader.py:521-532); `symbol[0]
in [6]` is read off the character list. -/
def _convert_to_futu_symbol (symbol : String) : String :=
  if pyIsdigit symbol ∧ symbol.data.length = 5 then "HK." ++ symbol
  else if pyIsdigit symbol ∧ symbol.data.length = 6 then
    (if symbol.data.take 1 = [Char.ofNat 54] then "SH." ++ symbol else "SZ." ++ symbol)
  else "US." ++ symbol

/-- The mock account returned by `get_account_info` in dry-run mode
(futu_trader.py:129-137; identical to the no-trade-context fallback 183-191). -/
def demoAccount : AccountInfo :=
  { account_id := "DEMO_ACCOUNT", total_assets := 100000, cash := 50000,
    market_value := 50000, unrealized_pnl := 0, realized_pnl := 0,
    buying_power := 50000 }

/-- Embeds `FutuTrader.get_account_info` (futu_trader.py:121-195). -/
def get_account_info (t : Trader) (env : BrokerEnv) : Option AccountInfo :=
  if ¬ t.is_connected then none
  else if t.config.dry_run then some demoAccount
  else env.accountInfo

/-- Embeds `FutuTrader.get_positions` (futu_trader.py:197-249). -/
def get_positions (t : Trader) (env : BrokerEnv) : List Position :=
  if ¬ t.is_connected then []
  else if t.config.dry_run then []
  else env.positions

/-- Embeds `FutuTrader.get_market_price` (futu_trader.py:251-278). -/
def get_market_price (t : Trader) (env : BrokerEnv) (symbol : String) : Option ℚ :=
  if ¬ t.is_connected then none
  else env.marketPrice (_convert_to_futu_symbol symbol)

/-- Embeds `BaseTrader._convert_action_to_order` (base_trader.py:104-137). -/
def _convert_action_to_order (ticker : String) (action : TradeAction)
    (quantity : ℤ) (current_price : Option ℚ) : Option TradeOrder :=
  let side : Option TradeSide :=
    match action with
    | TradeAction.buy => some TradeSide.BUY
    | TradeAction.sell => some TradeSide.SELL
    | TradeAction.short => some TradeSide.SELL
    | TradeAction.cover => some TradeSide.BUY
    | TradeAction.hold => none
  match side with
  | none => none
  | some side =>
    some { symbol := ticker, side := side, quantity := quantity,
           order_type := OrderType.MARKET,
           market := _detect_market ticker,
           price := if pyTruthy current_price then current_price else none }

/-- Embeds `BaseTrader.validate_trade` (base_trader.py:148-187). The
not-connected and dry-run early returns (156-161) come first. In live mode,
after the account check, line 169 evaluates `order.side.value` — an attribute
read on the stored plain string (see `TradeSide.pyValue`) — which raises
`AttributeError` for every order; the buying-power, held-shares and
max-order-value verdicts further down are therefore dead code in the source,
but are translated all the same (a second `.value` read sits at line 175). -/
def validate_trade (t : Trader) (env : BrokerEnv) (order : TradeOrder) :
    Except PyExc (Bool × String) :=
  if ¬ t.is_connected then
    .ok (false, "Not connected to trading platform")
  else if t.config.dry_run then
    .ok (true, "Dry run mode - trade will be simulated")
  else
    match get_account_info t env with
    | none => .ok (false, "Unable to get account information")
    | some account =>
      match order.side.pyValue with
      | .error e => .error e
      | .ok sideVal1 =>
        let estCost : ℚ :=
          (order.quantity : ℚ) *
            pyOrQ order.price (pyOrQ (get_market_price t env order.symbol) 0)
        if sideVal1 = "BUY" ∧ estCost > account.buying_power then
          .ok (false, "Insufficient buying power. Required: " ++
            ratStr estCost ++ ", Available: " ++ ratStr account.buying_power)
        else
          match order.side.pyValue with
          | .error e => .error e
          | .ok sideVal2 =>
            let position :=
              (get_positions t env).find? (fun p => p.symbol = order.symbol)
            let insufficient : Bool :=
              match position with
              | none => true
              | some p => p.quantity < order.quantity
            if sideVal2 = "SELL" ∧ insufficient ∧
                ¬ t.config.enable_short_selling then
              .ok (false, "Insufficient shares to sell. Required: " ++
                toString order.quantity ++ ", Available: " ++
                toString (match position with | none => (0 : ℤ) | some p => p.quantity))
            else
              let estValue : ℚ :=
                (order.quantity : ℚ) *
                  pyOrQ order.price (pyOrQ (get_market_price t env order.symbol) 0)
              if estValue > t.config.max_order_value then
                .ok (false, "Order value exceeds limit. Value: " ++
                  ratStr estValue ++ ", Limit: " ++ ratStr t.config.max_order_value)
              else
                .ok (true, "Trade validation passed")

/-- The fill result the dry-run simulation is written to produce: the slippage
and commission computed at futu_trader.py:466-473 and the `TradeResult` built
at lines 479-490. In the source this constructor is unreachable (the logging
statement just above it raises, see `_simulate_order`), so it is factored out
here both to translate those lines and to state what they compute. -/
def simulatedFillResult (order : TradeOrder) (order_id : String)
    (submit_time now : ℤ) (market_price : ℚ) : TradeResult :=
  let slippage : ℚ := 1/1000
  let fill_price : ℚ :=
    if order.side = TradeSide.BUY then market_price * (1 + slippage)
    else market_price * (1 - slippage)
  let commission : ℚ := max 1 (order.quantity * fill_price * (1/1000))
  { order_id := order_id, symbol := order.symbol, side := order.side,
    quantity := order.quantity, filled_quantity := order.quantity,
    avg_price := some fill_price, status := OrderStatus.FILLED,
    submit_time := submit_time, update_time := some now,
    commission := some commission }

/-- Embeds `FutuTrader._simulate_order` (futu_trader.py:448-503). After the
market-price guard, the body computes the fill and then evaluates the log
f-string at line 476, which reads `order.side.value` on the stored plain
string and raises `AttributeError` inside the `try`; the `except` at 492-503
converts it to a FAILED result with `filled_quantity` 0 and `error_msg`
`str(e)`. The FILLED full-fill return at 479-490 (`simulatedFillResult`) is
never reached. -/
def _simulate_order (t : Trader) (env : BrokerEnv) (order : TradeOrder)
    (order_id : String) (submit_time now : ℤ) : TradeResult :=
  let market_price := get_market_price t env order.symbol
  if ¬ pyTruthy market_price then
    { order_id := order_id, symbol := order.symbol, side := order.side,
      quantity := order.quantity, filled_quantity := 0,
      status := OrderStatus.FAILED, submit_time := submit_time,
      error_msg := some "Unable to get market price for simulation" }
  else
    match order.side.pyValue with
    | .error e =>
      { order_id := order_id, symbol := order.symbol, side := order.side,
        quantity := order.quantity, filled_quantity := 0,
        status := OrderStatus.FAILED, submit_time := submit_time,
        error_msg := some e.str }
    | .ok _ =>
      simulatedFillResult order order_id submit_time now (market_price.getD 0)

/-- Embeds `FutuTrader.submit_order` (futu_trader.py:280-301 plus the
real-execution branch 304-446, abstracted as `env.placeOrder`). The
`validate_trade` call at line 286 is outside any `try`, so an exception it
raises propagates out of `submit_order`. The second component of the result is
the trace of orders handed to the broker for placement: empty whenever the
rejected-validation or dry-run path is taken. -/
def submit_order (t : Trader) (env : BrokerEnv) (order : TradeOrder)
    (order_id : String) (submit_time now : ℤ) :
    Except PyExc (TradeResult × List TradeOrder) :=
  match validate_trade t env order with
  | .error e => .error e
  | .ok v =>
    if ¬ v.1 then
      .ok ({ order_id := order_id, symbol := order.symbol, side := order.side,
             quantity := order.quantity, filled_quantity := 0,
             status := OrderStatus.REJECTED, submit_time := submit_time,
             error_msg := some v.2 }, [])
    else if t.config.dry_run then
      .ok (_simulate_order t env order order_id submit_time now, [])
    else
      .ok (env.placeOrder order, [order])

/-- Embeds `BaseTrader.execute_trade` (base_trader.py:69-102): convert the
action to an order, submit it, append the result to the trader history, and
return `result.filled_quantity`. The `submit_order` call at line 97 is not
guarded, so an exception raised below it propagates to the caller. -/
def execute_trade (t : Trader) (env : BrokerEnv) (ticker : String)
    (action : TradeAction) (quantity : ℤ) (current_price : Option ℚ)
    (order_id : String) (now : ℤ) : Except PyExc (ℤ × Trader × List TradeOrder) :=
  if action = TradeAction.hold ∨ quantity ≤ 0 then .ok (0, t, [])
  else
    match _convert_action_to_order ticker action quantity current_price with
    | none => .ok (0, t, [])
    | some order =>
      match submit_order t env order order_id now now with
      | .error e => .error e
      | .ok rp =>
        .ok (rp.1.filled_quantity,
          { t with trade_history := t.trade_history ++ [rp.1] }, rp.2)

end Trader

/-! ## Local portfolio mirror and live executor (src/trading/live_executor.py) -/

/-- Modelled from the spec: the local Portfolio mirror of
`src/backtesting/portfolio.py`, which is not among the sources (only the
trading module and `live_main.py` are). Spec §3: "cash, positions with
long/short quantities and cost bases"; spec §4.3: "BUY → increase long
position and cost basis; SELL → decrease long position and realize gain/loss;
SHORT action → open/increase short position; COVER action → close/reduce short
position". Each `apply_*` method is called with a quantity and a price and
moves `quantity × price` of cash against the corresponding position. -/
structure Portfolio where
  cash : ℚ
  longPos : String → ℤ
  shortPos : String → ℤ

/-- Modelled from the spec: `Portfolio.apply_long_buy` — pay `quantity × price`
of cash for `quantity` shares added to the long position. -/
def Portfolio.apply_long_buy (pf : Portfolio) (ticker : String)
    (quantity : ℤ) (price : ℚ) : Portfolio :=
  { pf with cash := pf.cash - quantity * price,
            longPos := fun s => if s = ticker then pf.longPos s + quantity else pf.longPos s }

/-- Modelled from the spec: `Portfolio.apply_long_sell` — receive
`quantity × price` of cash for `quantity` shares removed from the long position. -/
def Portfolio.apply_long_sell (pf : Portfolio) (ticker : String)
    (quantity : ℤ) (price : ℚ) : Portfolio :=
  { pf with cash := pf.cash + quantity * price,
            longPos := fun s => if s = ticker then pf.longPos s - quantity else pf.longPos s }

/-- Modelled from the spec: `Portfolio.apply_short_open`. -/
def Portfolio.apply_short_open (pf : Portfolio) (ticker : String)
    (quantity : ℤ) (price : ℚ) : Portfolio :=
  { pf with cash := pf.cash + quantity * price,
            shortPos := fun s => if s = ticker then pf.shortPos s + quantity else pf.shortPos s }

/-- Modelled from the spec: `Portfolio.apply_short_cover`. -/
def Portfolio.apply_short_cover (pf : Portfolio) (ticker : String)
    (quantity : ℤ) (price : ℚ) : Portfolio :=
  { pf with cash := pf.cash - quantity * price,
            shortPos := fun s => if s = ticker then pf.shortPos s - quantity else pf.shortPos s }

/-- One entry of the failed-trade log of the executor (live_executor.py:158-165 and
173-181; the `error` field is present only on the exception path). -/
structure FailedTrade where
  timestamp : ℤ
  ticker : String
  action : TradeAction
  requested_qty : ℚ
  executed_qty : ℤ
  price : ℚ
  error : Option String := none
deriving DecidableEq, Repr

/-- One invocation of `_update_local_portfolio`, recorded so that "the
portfolio was updated exactly once, with these arguments" is a provable
statement. -/
structure PortfolioUpdate where
  ticker : String
  action : TradeAction
  quantity : ℤ
  price : ℚ
deriving DecidableEq, Repr

/-- State of a `LiveTradeExecutor` (live_executor.py:26-44). -/
structure LiveTradeExecutor where
  trader : Trader
  execution_history : List TradeResult := []
  failed_trades : List FailedTrade := []
  total_trades : ℤ := 0
  successful_trades : ℤ := 0

namespace LiveTradeExecutor

/-- Embeds `LiveTradeExecutor._update_local_portfolio` (live_executor.py:185-214):
dispatch the executed fill to the matching portfolio method. (The `Action`
conversion maps each action literal to itself; errors are swallowed by the
handler of the method itself, and nothing in the embedded body raises.) -/
def _update_local_portfolio (pf : Portfolio) (ticker : String)
    (action : TradeAction) (quantity : ℤ) (price : ℚ) : Portfolio :=
  match action with
  | TradeAction.buy => pf.apply_long_buy ticker quantity price
  | TradeAction.sell => pf.apply_long_sell ticker quantity price
  | TradeAction.short => pf.apply_short_open ticker quantity price
  | TradeAction.cover => pf.apply_short_cover ticker quantity price
  | TradeAction.hold => pf

/-- Embeds `LiveTradeExecutor.execute_trade_async` (live_executor.py:98-183), with
the awaited call `self.trader.execute_trade(...)` left as a parameter `sub`
(a function of `int(quantity)`) so that an arbitrary outcome — a returned
quantity or a raised exception — can be considered. The source wraps that
call in `try/except Exception`: an exception is logged to `failed_trades`
(with its text) and converted to the return value 0, so the function as a
whole is total and always returns an integer.

Result components: executed quantity, new executor state, new portfolio,
orders placed with the broker, portfolio-update invocations. -/
def execute_trade_async_core (ex : LiveTradeExecutor) (ticker : String)
    (action : TradeAction) (quantity : Option ℚ) (current_price : ℚ)
    (pf : Portfolio) (now : ℤ)
    (sub : ℤ → Except PyExc (ℤ × Trader × List TradeOrder)) :
    ℤ × LiveTradeExecutor × Portfolio × List TradeOrder × List PortfolioUpdate :=
  match quantity with
  | none => (0, ex, pf, [], [])
  | some q =>
    if q ≤ 0 then (0, ex, pf, [], [])
    else if action = TradeAction.hold then (0, ex, pf, [], [])
    else
      let ex := { ex with total_trades := ex.total_trades + 1 }
      match sub (pyTrunc q) with
      | .ok (executed_qty, t, placed) =>
        let ex := { ex with trader := t }
        if executed_qty > 0 then
          let ex := { ex with successful_trades := ex.successful_trades + 1 }
          let pf := _update_local_portfolio pf ticker action executed_qty current_price
          (executed_qty, ex, pf, placed,
           [{ ticker := ticker, action := action, quantity := executed_qty,
              price := current_price }])
        else
          let ex := { ex with failed_trades := ex.failed_trades ++
            [{ timestamp := now, ticker := ticker, action := action,
               requested_qty := q, executed_qty := executed_qty,
               price := current_price }] }
          (executed_qty, ex, pf, placed, [])
      | .error e =>
        let ex := { ex with failed_trades := ex.failed_trades ++
          [{ timestamp := now, ticker := ticker, action := action,
             requested_qty := q, executed_qty := 0,
             price := current_price, error := some e.str }] }
        (0, ex, pf, [], [])

/-- Embeds `LiveTradeExecutor.execute_trade_async` with the actual trader call
in place: `Trader.execute_trade` is itself `Except`-valued (in live mode the
`order.side.value` read inside `validate_trade` raises, and the raise
propagates up to this boundary), and its outcome feeds the catch-all of the
core. -/
def execute_trade_async (ex : LiveTradeExecutor) (env : BrokerEnv)
    (ticker : String) (action : TradeAction) (quantity : Option ℚ)
    (current_price : ℚ) (pf : Portfolio) (order_id : String) (now : ℤ) :
    ℤ × LiveTradeExecutor × Portfolio × List TradeOrder × List PortfolioUpdate :=
  execute_trade_async_core ex ticker action quantity current_price pf now
    (fun qInt => Trader.execute_trade ex.trader env ticker action qInt
      (some current_price) order_id now)

/-- The report assembled by `get_execution_report` (live_executor.py:262-280). -/
structure ExecutionReport where
  total_trades : ℤ
  successful_trades : ℤ
  failed_trades : ℤ
  success_rate : ℚ
  total_executed_value : ℚ
  total_commission : ℚ
  recent_failures : List FailedTrade
deriving Repr

/-- Embeds `LiveTradeExecutor.get_execution_report` (live_executor.py:262-280);
`recent_failures` is `failed_trades[-10:]` (the empty-list guard yields `[]`,
which agrees with the slice). -/
def get_execution_report (ex : LiveTradeExecutor) : ExecutionReport :=
  let step : (ℚ × ℚ) → TradeResult → (ℚ × ℚ) := fun (value, comm) trade =>
    if pyTruthy trade.avg_price ∧ trade.filled_quantity ≠ 0 then
      (value + (trade.avg_price.getD 0) * trade.filled_quantity,
       comm + (trade.commission.getD 0))
    else (value, comm)
  let (total_executed_value, total_commission) :=
    ex.execution_history.foldl step (0, 0)
  { total_trades := ex.total_trades,
    successful_trades := ex.successful_trades,
    failed_trades := ex.failed_trades.length,
    success_rate := ex.successful_trades / (max 1 ex.total_trades : ℤ),
    total_executed_value := total_executed_value,
    total_commission := total_commission,
    recent_failures := ex.failed_trades.drop (ex.failed_trades.length - 10) }

end LiveTradeExecutor

/-- One iteration of the per-ticker trading loop of `run_live_hedge_fund`
(src/live_main.py:122-164): skip holds and non-positive quantities, fetch the
market price, and call `executor.execute_trade_async`. The `RiskManager`
created at live_main.py:53 is in scope but is not consulted anywhere in this
loop — it is returned unchanged. -/
def live_trade_step (rm : RiskManager) (ex : LiveTradeExecutor) (pf : Portfolio)
    (env : BrokerEnv) (ticker : String) (action : TradeAction) (quantity : ℚ)
    (order_id : String) (now : ℤ) :
    RiskManager × LiveTradeExecutor × Portfolio × ℤ × List TradeOrder × List PortfolioUpdate :=
  if action = TradeAction.hold ∨ quantity ≤ 0 then (rm, ex, pf, 0, [], [])
  else
    match Trader.get_market_price ex.trader env ticker with
    | none => (rm, ex, pf, 0, [], [])
    | some cp =>
      if cp = 0 then (rm, ex, pf, 0, [], [])
      else
        let (q, ex, pf, placed, upds) :=
          ex.execute_trade_async env ticker action (some quantity) cp pf order_id now
        (rm, ex, pf, q, placed, upds)

/-! ## Concrete scenario data used by the properties below -/

/-- A broker-side order outcome for the abstracted real-execution branch of
the environments below (never reached in the dry-run scenarios). -/
def dummyPlace (o : TradeOrder) : TradeResult :=
  { order_id := "broker-1", symbol := o.symbol, side := o.side,
    quantity := o.quantity, status := OrderStatus.FAILED, submit_time := 0 }

/-- Environment where AAPL quotes at $150 and nothing else is available. -/
def envAAPL : BrokerEnv :=
  { marketPrice := fun s => if s = "US.AAPL" then some 150 else none,
    accountInfo := none, positions := [],
    placeOrder := dummyPlace }

/-- A connected dry-run trader (short selling disabled). -/
def traderDry : Trader :=
  { config := { dry_run := true, enable_short_selling := false, max_order_value := 10000 },
    is_connected := true }

/-- Executor wrapping the dry-run trader. -/
def exDry : LiveTradeExecutor := { trader := traderDry }

/-- A connected live-mode trader (dry run off, short selling disabled). -/
def traderLive : Trader :=
  { config := { dry_run := false, enable_short_selling := false, max_order_value := 10000 },
    is_connected := true }

/-- Executor wrapping the live-mode trader. -/
def exLive : LiveTradeExecutor := { trader := traderLive }

/-- A conforming `AccountInfo` value (the dry-run demo account). -/
def accScenario : AccountInfo := Trader.demoAccount

/-- Live-mode environment: the account-info path yields `accScenario`, no
positions are held, AAPL quotes at $150. -/
def envLive : BrokerEnv :=
  { marketPrice := fun s => if s = "US.AAPL" then some 150 else none,
    accountInfo := some accScenario, positions := [],
    placeOrder := dummyPlace }

/-- Local portfolio mirror with $50,000 cash and no positions. -/
def pf0 : Portfolio := { cash := 50000, longPos := fun _ => 0, shortPos := fun _ => 0 }

/-- Risk manager with the default limits, fresh counters, reset date 0. -/
def rm0 : RiskManager := { limits := {}, last_reset := 0 }

/-- Risk manager with a tripped circuit breaker and stale daily counters. -/
def rmBreakerOn : RiskManager :=
  { limits := {}, daily_pnl := -500, daily_trades := 7, last_reset := 0,
    circuit_breaker_active := true }

/-- Risk manager configured as in `live_main.py` (`max_position_concentration`
0.15) with the other defaults. -/
def rmRisk : RiskManager :=
  { limits := { max_position_concentration := 3/20 }, last_reset := 0 }

/-- The order of the end-to-end buy scenario: BUY 10 AAPL at $150. -/
def orderBuy10 : TradeOrder :=
  { symbol := "AAPL", side := TradeSide.BUY, quantity := 10,
    market := MarketType.US, price := some 150 }

/-- SELL 100 AAPL at $150 (the sell-without-shares scenario). -/
def orderSell100 : TradeOrder :=
  { symbol := "AAPL", side := TradeSide.SELL, quantity := 100,
    market := MarketType.US, price := some 150 }

/-- An order whose projected position value is $20,000: BUY 200 shares at
$100 with no current position. -/
def orderConc : TradeOrder :=
  { symbol := "AAPL", side := TradeSide.BUY, quantity := 200,
    market := MarketType.US, price := some 100 }

/-- The end-to-end dry-run buy scenario: one iteration of the live loop for
ticker AAPL, action buy, quantity 10, with AAPL quoting at $150. -/
def buyRun :
    RiskManager × LiveTradeExecutor × Portfolio × ℤ × List TradeOrder × List PortfolioUpdate :=
  live_trade_step rm0 exDry pf0 envAAPL "AAPL" TradeAction.buy 10 "order-1" 0

/-- A FILLED submission result: 10 shares at avg price 150.15 (slippage
applied to a market price of 150) — a `TradeResult` satisfying the antecedent
of the original C2 claim. -/
def resultFill : TradeResult :=
  { order_id := "order-1", symbol := "AAPL", side := TradeSide.BUY,
    quantity := 10, filled_quantity := 10, avg_price := some (3003/20),
    status := OrderStatus.FILLED, submit_time := 0, update_time := some 0,
    commission := some (3003/2000) }

/-- The dry-run trader with `resultFill` appended to its history. -/
def traderFill : Trader :=
  { config := traderDry.config, is_connected := true,
    trade_history := [resultFill] }

/-- An awaited-call outcome delivering the fill `resultFill`: executed
quantity 10 together with the updated trader. -/
def subFill : ℤ → Except PyExc (ℤ × Trader × List TradeOrder) :=
  fun _ => .ok (resultFill.filled_quantity, traderFill, [])

/-- A trader-call outcome that returns an executed quantity of 7. -/
def subOk7 : ℤ → Except PyExc (ℤ × Trader × List TradeOrder) :=
  fun _ => .ok (7, traderDry, [])

/-- A trader-call outcome that raises. -/
def subRaise : ℤ → Except PyExc (ℤ × Trader × List TradeOrder) :=
  fun _ => .error (.other "network down")

/-! ## Shared lemmas -/

/-- The lazy daily reset never turns the circuit breaker on. -/
theorem RiskManager.breaker_false_after_reset (rm : RiskManager) (today : ℤ)
    (h : rm.circuit_breaker_active = false) :
    (rm._check_daily_reset today).circuit_breaker_active = false := by
  unfold RiskManager._check_daily_reset
  split <;> simp [h]

/-! ## Properties -/

/-- C3: whenever `circuit_breaker_active` is false, `validate_order` applied to
any order, any dict-shaped `AccountInfo`, and any positions raises
`AttributeError` instead of returning a verdict: the cash-reserve check reads
`account_info.cash` (BUY path) and the concentration check reads
`account_info.net_liquidation` (SELL path) as attributes of a dict — and
`net_liquidation` is not a field of `AccountInfo` at all; the latter read sits
before the exception handler of that check. Hence `validate_order` never returns an
approval for any conforming input. -/
theorem C3_validate_order_raises (rm : RiskManager) (today : ℤ)
    (order : TradeOrder) (acc : AccountInfo) (pos : List Position)
    (h : rm.circuit_breaker_active = false) :
    ∃ name, (RiskManager.validate_order rm today order acc pos).1 =
      Except.error (PyExc.attributeError name) := by
  have hb := RiskManager.breaker_false_after_reset rm today h
  unfold RiskManager.validate_order RiskManager.validate_order_after
  rw [if_neg (by simp [hb])]
  cases hs : order.side with
  | BUY =>
    refine ⟨"cash", ?_⟩
    simp [RiskManager._check_cash_reserve, hs, AccountInfo.attr]
  | SELL =>
    refine ⟨"net_liquidation", ?_⟩
    simp [RiskManager._check_cash_reserve, hs, AccountInfo.attr,
      RiskManager._check_position_concentration]

/-- C3 witness: the fresh default-limit risk manager, the concrete BUY order,
and the demo account hit the `AttributeError`. -/
theorem C3_validate_order_raises_witness :
    rm0.circuit_breaker_active = false ∧
    ∃ name, (RiskManager.validate_order rm0 0 orderBuy10 accScenario []).1 =
      Except.error (PyExc.attributeError name) :=
  ⟨rfl, C3_validate_order_raises rm0 0 orderBuy10 accScenario [] rfl⟩

/-- C6: if `update_pnl` leaves `daily_pnl` strictly below `-max_daily_loss`,
the circuit breaker trips, and every subsequent same-day `validate_order` call
(no day rollover, which is the only thing that clears the breaker besides a
manual reset) returns not-approved with risk level CRITICAL, regardless of the
order, account snapshot, or positions. -/
theorem C6_circuit_breaker_halts (rm : RiskManager) (delta : ℚ)
    (h : (rm.update_pnl delta).daily_pnl < -rm.limits.max_daily_loss) :
    (rm.update_pnl delta).circuit_breaker_active = true ∧
    ∀ (today : ℤ) (order : TradeOrder) (acc : AccountInfo) (pos : List Position),
      ¬ (rm.update_pnl delta).last_reset < today →
      (RiskManager.validate_order (rm.update_pnl delta) today order acc pos).1 =
        Except.ok (false, "Circuit breaker active - trading halted", RiskLevel.CRITICAL) := by
  have hcond : rm.daily_pnl + delta < -rm.limits.max_daily_loss := by
    have hpnl : (rm.update_pnl delta).daily_pnl = rm.daily_pnl + delta := by
      simp only [RiskManager.update_pnl]
      split <;> rfl
    rwa [hpnl] at h
  have hbrk : (rm.update_pnl delta).circuit_breaker_active = true := by
    simp only [RiskManager.update_pnl]
    rw [if_pos hcond]
  refine ⟨hbrk, ?_⟩
  intro today order acc pos hres
  simp [RiskManager.validate_order, RiskManager.validate_order_after,
    RiskManager._check_daily_reset, hres, hbrk]

/-- C6 witness: an `update_pnl` call taking `daily_pnl` to −10001 against the
default −10000 limit trips the breaker, and a same-day validation of the
concrete BUY order is rejected CRITICAL. -/
theorem C6_circuit_breaker_halts_witness :
    (rm0.update_pnl (-10001)).circuit_breaker_active = true ∧
    (RiskManager.validate_order (rm0.update_pnl (-10001)) 0 orderBuy10 accScenario []).1 =
      Except.ok (false, "Circuit breaker active - trading halted", RiskLevel.CRITICAL) :=
  ⟨(C6_circuit_breaker_halts rm0 (-10001)
      (by norm_num [RiskManager.update_pnl, rm0])).1,
   (C6_circuit_breaker_halts rm0 (-10001)
      (by norm_num [RiskManager.update_pnl, rm0])).2 0 orderBuy10 accScenario []
      (by norm_num [RiskManager.update_pnl, rm0])⟩

/-- C7: when a validation happens on a date later than the last-reset date
(with a monotone clock, any different date is a later one — `last_reset` is
initialized to the construction date and only ever advanced to "today"), the
daily counters reset to 0 and the circuit breaker clears, even if it was
active; the reset is idempotent for the same day, and `validate_order` on the
old state evaluates exactly as on the reset state (the reset runs first). -/
theorem C7_day_rollover_reset (rm : RiskManager) (today : ℤ)
    (hmono : rm.last_reset ≤ today) (hne : today ≠ rm.last_reset) :
    (rm._check_daily_reset today).daily_trades = 0 ∧
    (rm._check_daily_reset today).daily_pnl = 0 ∧
    (rm._check_daily_reset today).circuit_breaker_active = false ∧
    (rm._check_daily_reset today).last_reset = today ∧
    (rm._check_daily_reset today)._check_daily_reset today = rm._check_daily_reset today ∧
    ∀ (order : TradeOrder) (acc : AccountInfo) (pos : List Position),
      RiskManager.validate_order rm today order acc pos =
        RiskManager.validate_order (rm._check_daily_reset today) today order acc pos := by
  have hlt : rm.last_reset < today := lt_of_le_of_ne hmono (Ne.symm hne)
  have hreset : rm._check_daily_reset today =
      { rm with daily_pnl := 0, daily_trades := 0,
                circuit_breaker_active := false, last_reset := today } := by
    unfold RiskManager._check_daily_reset
    rw [if_pos hlt]
  have hidem : (rm._check_daily_reset today)._check_daily_reset today =
      rm._check_daily_reset today := by
    rw [hreset]
    unfold RiskManager._check_daily_reset
    rw [if_neg (lt_irrefl today)]
  refine ⟨by rw [hreset], by rw [hreset], by rw [hreset], by rw [hreset], hidem, ?_⟩
  intro order acc pos
  unfold RiskManager.validate_order
  rw [hidem]

/-- C7 witness: a breaker-on, dirty-counter state reset by a next-day
validation date. -/
theorem C7_day_rollover_reset_witness :
    (rmBreakerOn._check_daily_reset 1).daily_trades = 0 ∧
    (rmBreakerOn._check_daily_reset 1).daily_pnl = 0 ∧
    (rmBreakerOn._check_daily_reset 1).circuit_breaker_active = false ∧
    (rmBreakerOn._check_daily_reset 1)._check_daily_reset 1 =
      rmBreakerOn._check_daily_reset 1 :=
  ⟨(C7_day_rollover_reset rmBreakerOn 1 (by decide) (by decide)).1,
   (C7_day_rollover_reset rmBreakerOn 1 (by decide) (by decide)).2.1,
   (C7_day_rollover_reset rmBreakerOn 1 (by decide) (by decide)).2.2.1,
   (C7_day_rollover_reset rmBreakerOn 1 (by decide) (by decide)).2.2.2.2.1⟩

/-- C1 counterexample: running the exact end-to-end dry-run scenario (ticker
AAPL, action buy, quantity 10, market price and pre-trade price $150) refutes
the claim on every count: the executor returns executed quantity 0, not 10
(the simulation crashes at the `order.side.value` log read and is reported
FAILED), the cash of the portfolio is unchanged rather than decreasing by
1500 × (1 + slippage) + commission, and the `daily_trades` counter of the
risk manager stays 0 rather than incrementing (the execute path never
consults the Risk Manager). -/
theorem C1_counterexample :
    buyRun.2.2.2.1 = 0 ∧ (0 : ℤ) ≠ 10 ∧
    buyRun.2.2.1.cash = pf0.cash ∧
    (0 : ℚ) ≠ 1500 * (1 + 1/1000) + max 1 ((10:ℚ) * (150 * (1 + 1/1000)) * (1/1000)) ∧
    buyRun.1.daily_trades = rm0.daily_trades ∧ rm0.daily_trades = 0 := by
  refine ⟨?_, by norm_num, ?_, by norm_num [max_def], ?_, rfl⟩ <;>
  · simp +decide [buyRun, live_trade_step, LiveTradeExecutor.execute_trade_async,
      LiveTradeExecutor.execute_trade_async_core, Trader.execute_trade,
      Trader.submit_order, Trader.validate_trade, Trader._simulate_order,
      Trader.simulatedFillResult, TradeSide.pyValue, PyExc.str,
      Trader._convert_action_to_order, Trader.get_market_price,
      Trader._convert_to_futu_symbol, Trader._detect_market, Trader.pyIsdigit,
      LiveTradeExecutor._update_local_portfolio, Portfolio.apply_long_buy,
      pyOrQ, pyTruthy, pyTrunc, envAAPL, exDry, traderDry, pf0, rm0]
    try norm_num

/-- C1 amended: in the end-to-end dry-run buy scenario the executor returns
executed quantity 0: the dry-run simulation fails (the `order.side.value`
read in its log statement raises and the handler reports FAILED with 0
filled and the AttributeError text), so a failed-trade entry is logged, the
local portfolio (its cash in particular) is untouched, no order is placed
with the broker, and the Risk Manager — never consulted by the execute path
— is returned unchanged with daily_trades 0. -/
theorem C1_amended_dry_run_buy :
    buyRun.2.2.2.1 = 0 ∧
    buyRun.2.2.1.cash = pf0.cash ∧
    buyRun.1 = rm0 ∧
    buyRun.2.2.2.2.1 = [] ∧
    buyRun.2.2.2.2.2 = [] ∧
    buyRun.2.1.failed_trades =
      [{ timestamp := 0, ticker := "AAPL", action := TradeAction.buy,
         requested_qty := 10, executed_qty := 0, price := 150 }] ∧
    buyRun.2.1.trader.trade_history =
      [{ order_id := "order-1", symbol := "AAPL", side := TradeSide.BUY,
         quantity := 10, filled_quantity := 0, status := OrderStatus.FAILED,
         submit_time := 0, error_msg := some "AttributeError: value" }] := by
  refine ⟨?_, ?_, ?_, ?_, ?_, ?_, ?_⟩ <;>
  · simp +decide [buyRun, live_trade_step, LiveTradeExecutor.execute_trade_async,
      LiveTradeExecutor.execute_trade_async_core, Trader.execute_trade,
      Trader.submit_order, Trader.validate_trade, Trader._simulate_order,
      Trader.simulatedFillResult, TradeSide.pyValue, PyExc.str,
      Trader._convert_action_to_order, Trader.get_market_price,
      Trader._convert_to_futu_symbol, Trader._detect_market, Trader.pyIsdigit,
      LiveTradeExecutor._update_local_portfolio, Portfolio.apply_long_buy,
      pyOrQ, pyTruthy, pyTrunc, envAAPL, exDry, traderDry, pf0]
    try norm_num

/-- C2 amended: for every trade whose submission outcome reports an executed
quantity > 0, the executor updates the local portfolio exactly once, with the
actually executed quantity — but with the pre-trade `current_price`: the fill
price (`avg_price`) never reaches the executor, whose trader call returns only
`filled_quantity`. -/
theorem C2_amended_update_once (ex : LiveTradeExecutor) (ticker : String)
    (action : TradeAction) (q cp : ℚ) (pf : Portfolio) (now : ℤ)
    (sub : ℤ → Except PyExc (ℤ × Trader × List TradeOrder))
    (executed : ℤ) (t : Trader) (placed : List TradeOrder)
    (hq : 0 < q) (ha : action ≠ TradeAction.hold)
    (hsub : sub (pyTrunc q) = Except.ok (executed, t, placed))
    (hfill : 0 < executed) :
    (LiveTradeExecutor.execute_trade_async_core ex ticker action (some q) cp pf now sub).2.2.2.2 =
      [{ ticker := ticker, action := action, quantity := executed, price := cp }] ∧
    (LiveTradeExecutor.execute_trade_async_core ex ticker action (some q) cp pf now sub).2.2.1 =
      LiveTradeExecutor._update_local_portfolio pf ticker action executed cp := by
  constructor <;>
    simp [LiveTradeExecutor.execute_trade_async_core, hsub, hq.not_le, ha, hfill]

/-- C2 amended witness: a submission outcome of 7 executed shares against a
request of 5.0 at pre-trade price 42 produces exactly one portfolio update,
with quantity 7 and price 42. -/
theorem C2_amended_update_once_witness :
    (LiveTradeExecutor.execute_trade_async_core exDry "AAPL" TradeAction.buy
      (some 5) 42 pf0 0 subOk7).2.2.2.2 =
      [{ ticker := "AAPL", action := TradeAction.buy, quantity := 7, price := 42 }] :=
  (C2_amended_update_once exDry "AAPL" TradeAction.buy 5 42 pf0 0 subOk7 7 traderDry []
    (by norm_num) (by decide) rfl (by decide)).1

/-- C2 counterexample: a submission outcome whose `TradeResult` has
`filled_quantity` 10 and `avg_price` 150.15 — supplied as the explicit
awaited-call outcome, because through the staged `FutuTrader` no call path
ever produces a fill (every dry-run submission fails at the
`order.side.value` log read, and live-mode validation raises at the same
read) — makes the executor perform its single portfolio update at price 150,
the pre-trade `current_price`, not the `avg_price` of the result: the claim
as stated is false at this input. -/
theorem C2_counterexample :
    resultFill.filled_quantity = 10 ∧
    resultFill.avg_price = some (3003/20) ∧
    (LiveTradeExecutor.execute_trade_async_core exDry "AAPL" TradeAction.buy
      (some 10) 150 pf0 0 subFill).2.2.2.2 =
      [{ ticker := "AAPL", action := TradeAction.buy, quantity := 10, price := 150 }] ∧
    (150 : ℚ) ≠ 3003/20 := by
  refine ⟨rfl, rfl, ?_, by norm_num⟩
  simp +decide [LiveTradeExecutor.execute_trade_async_core, subFill, resultFill]
  try norm_num

/-- C4 amended: with the trader connected and `dry_run` true, `validate_trade`
returns approved immediately with the dry-run message — for every environment
and every order, i.e. without consulting buying power, held shares / short
selling, or `max_order_value` (the dry-run early return at base_trader.py:160
precedes the raising `order.side.value` reads). The subsequent dry-run
submission (market price available and nonzero) is simulated, but reported as
status FAILED with 0 filled rather than a full fill: the simulation crashes
at its own `order.side.value` log read and the handler returns the failure
result. In particular a SELL of shares not held with short selling disabled
passes validation and is reported as a failed simulated order. -/
theorem C4_dry_run_validation_bypass (t : Trader) (env : BrokerEnv)
    (order : TradeOrder) (oid : String) (st now : ℤ) (p : ℚ)
    (hc : t.is_connected = true) (hd : t.config.dry_run = true) :
    Trader.validate_trade t env order =
      Except.ok (true, "Dry run mode - trade will be simulated") ∧
    (env.marketPrice (Trader._convert_to_futu_symbol order.symbol) = some p → p ≠ 0 →
      Trader.submit_order t env order oid st now =
        Except.ok ({ order_id := oid, symbol := order.symbol, side := order.side,
                     quantity := order.quantity, filled_quantity := 0,
                     status := OrderStatus.FAILED, submit_time := st,
                     error_msg := some "AttributeError: value" }, [])) := by
  have hval : Trader.validate_trade t env order =
      Except.ok (true, "Dry run mode - trade will be simulated") := by
    unfold Trader.validate_trade
    rw [if_neg (by simp [hc]), if_pos hd]
  refine ⟨hval, fun hp hp0 => ?_⟩
  have hstr : ("AttributeError: " ++ "value" : String) = "AttributeError: value" := by
    decide
  simp [Trader.submit_order, hval, hd, Trader._simulate_order,
    Trader.get_market_price, hc, hp, pyTruthy, hp0, TradeSide.pyValue,
    PyExc.str, hstr]

/-- C4 witness: the dry-run BUY of 10 AAPL at market price 150 is approved by
validation and its submission comes back FAILED with 0 filled. -/
theorem C4_dry_run_validation_bypass_witness :
    Trader.validate_trade traderDry envAAPL orderBuy10 =
      Except.ok (true, "Dry run mode - trade will be simulated") ∧
    Trader.submit_order traderDry envAAPL orderBuy10 "order-1" 0 0 =
      Except.ok ({ order_id := "order-1", symbol := "AAPL", side := TradeSide.BUY,
                   quantity := 10, filled_quantity := 0, status := OrderStatus.FAILED,
                   submit_time := 0, error_msg := some "AttributeError: value" }, []) :=
  ⟨(C4_dry_run_validation_bypass traderDry envAAPL orderBuy10 "order-1" 0 0 150
      rfl rfl).1,
   (C4_dry_run_validation_bypass traderDry envAAPL orderBuy10 "order-1" 0 0 150
      rfl rfl).2 (by decide) (by norm_num)⟩

/-- C4 counterexample: the dry-run SELL of 100 unheld AAPL shares (short
selling disabled) passes validation, yet `submit_order` reports status FAILED
with 0 of the 100 requested shares filled — not the full fill the claim
asserts. -/
theorem C4_counterexample :
    Trader.validate_trade traderDry envAAPL orderSell100 =
      Except.ok (true, "Dry run mode - trade will be simulated") ∧
    Trader.submit_order traderDry envAAPL orderSell100 "order-1" 0 0 =
      Except.ok ({ order_id := "order-1", symbol := "AAPL", side := TradeSide.SELL,
                   quantity := 100, filled_quantity := 0, status := OrderStatus.FAILED,
                   submit_time := 0, error_msg := some "AttributeError: value" }, []) ∧
    (0 : ℤ) ≠ 100 ∧ OrderStatus.FAILED ≠ OrderStatus.FILLED := by
  refine ⟨?_, ?_, by decide, by decide⟩ <;>
  · simp +decide [Trader.submit_order, Trader.validate_trade,
      Trader._simulate_order, Trader.get_market_price, Trader.get_account_info,
      Trader._convert_to_futu_symbol, Trader.pyIsdigit, TradeSide.pyValue,
      PyExc.str, pyTruthy, pyOrQ, envAAPL, traderDry, orderSell100]
    try norm_num

/-- C5: the live-mode SELL of 100 unheld shares (short selling disabled). The
claim expects a validation rejection; the code instead raises before the
held-shares check is ever reached: `validate_trade` evaluates
`order.side.value` (base_trader.py:169) on the stored plain string, and the
`AttributeError` propagates through `submit_order` and `execute_trade` to the
catch-all of the executor, which returns executed quantity 0 and logs the
error text — and no order is handed to the broker. This theorem evaluates the
code at the failing input: validation raises (in particular it never returns
a verdict), the executor returns 0, the broker-placement trace is empty, and
the failed-trade entry carries the AttributeError text. -/
theorem C5_sell_without_shares_crash :
    Trader.validate_trade traderLive envLive orderSell100 =
      Except.error (PyExc.attributeError "value") ∧
    (∀ v : Bool × String,
      Trader.validate_trade traderLive envLive orderSell100 ≠ Except.ok v) ∧
    (LiveTradeExecutor.execute_trade_async exLive envLive "AAPL" TradeAction.sell
      (some 100) 150 pf0 "order-1" 0).1 = 0 ∧
    (LiveTradeExecutor.execute_trade_async exLive envLive "AAPL" TradeAction.sell
      (some 100) 150 pf0 "order-1" 0).2.2.2.1 = [] ∧
    (LiveTradeExecutor.execute_trade_async exLive envLive "AAPL" TradeAction.sell
      (some 100) 150 pf0 "order-1" 0).2.1.failed_trades =
      [{ timestamp := 0, ticker := "AAPL", action := TradeAction.sell,
         requested_qty := 100, executed_qty := 0, price := 150,
         error := some "AttributeError: value" }] := by
  have h1 : Trader.validate_trade traderLive envLive orderSell100 =
      Except.error (PyExc.attributeError "value") := by
    simp +decide [Trader.validate_trade, Trader.get_account_info, traderLive,
      envLive, TradeSide.pyValue]
  refine ⟨h1, fun v hv => by rw [h1] at hv; exact Except.noConfusion hv,
    ?_, ?_, ?_⟩ <;>
  · simp +decide [LiveTradeExecutor.execute_trade_async,
      LiveTradeExecutor.execute_trade_async_core, Trader.execute_trade,
      Trader.submit_order, Trader.validate_trade, Trader.get_account_info,
      Trader._convert_action_to_order, Trader.get_market_price,
      Trader._convert_to_futu_symbol, Trader._detect_market, Trader.pyIsdigit,
      TradeSide.pyValue, PyExc.str, pyOrQ, pyTruthy, pyTrunc,
      envLive, exLive, traderLive, pf0]
    try norm_num

/-- C8: dry-run submissions. `simulatedFillResult` — the fill the simulation
is written to produce at futu_trader.py:466-490 — provably computes exactly
what the claim states at the scenario market price 150: FILLED at the full
requested quantity, avg_price strictly above the market price for BUY
(150.15) and strictly below for SELL (149.85), commission
max(1, 0.1% of notional). But the program never returns it: the log f-string
at line 476 raises `AttributeError` on `order.side.value` inside the `try`,
so every dry-run submission actually returns status FAILED with 0 filled and
the error text. -/
theorem C8_dry_run_submission_fails :
    Trader.submit_order traderDry envAAPL orderBuy10 "order-1" 0 0 =
      Except.ok ({ order_id := "order-1", symbol := "AAPL", side := TradeSide.BUY,
                   quantity := 10, filled_quantity := 0, status := OrderStatus.FAILED,
                   submit_time := 0, error_msg := some "AttributeError: value" }, []) ∧
    Trader.simulatedFillResult orderBuy10 "order-1" 0 0 150 =
      { order_id := "order-1", symbol := "AAPL", side := TradeSide.BUY,
        quantity := 10, filled_quantity := 10, avg_price := some (3003/20),
        status := OrderStatus.FILLED, submit_time := 0, update_time := some 0,
        commission := some (3003/2000) } ∧
    (150 : ℚ) < 3003/20 ∧
    (3003 : ℚ)/2000 = max 1 ((10:ℚ) * (3003/20) * (1/1000)) ∧
    Trader.simulatedFillResult orderSell100 "order-1" 0 0 150 =
      { order_id := "order-1", symbol := "AAPL", side := TradeSide.SELL,
        quantity := 100, filled_quantity := 100, avg_price := some (2997/20),
        status := OrderStatus.FILLED, submit_time := 0, update_time := some 0,
        commission := some (2997/200) } ∧
    (2997 : ℚ)/20 < 150 := by
  refine ⟨?_, ?_, by norm_num, by norm_num [max_def], ?_, by norm_num⟩
  · simp +decide [Trader.submit_order, Trader.validate_trade,
      Trader._simulate_order, Trader.get_market_price, Trader.get_account_info,
      Trader._convert_to_futu_symbol, Trader.pyIsdigit, TradeSide.pyValue,
      PyExc.str, pyTruthy, pyOrQ, envAAPL, traderDry, orderBuy10]
    try norm_num
  · simp +decide [Trader.simulatedFillResult, orderBuy10]
    norm_num [max_def]
  · simp +decide [Trader.simulatedFillResult, orderSell100]
    norm_num [max_def]

/-- C10: the async trade path of the executor is total — every submission outcome is
mapped to an integer return value. An exception becomes return value 0 with a
failed-trade entry carrying timestamp, requested and executed quantities,
price, and the error text; a zero-fill result becomes return value 0 with the
same entry minus the error field; a positive fill is returned as is. The
execution report exposes the last 10 entries of the failed-trade log. -/
theorem C10_executor_never_raises (ex : LiveTradeExecutor) (ticker : String)
    (action : TradeAction) (q cp : ℚ) (pf : Portfolio) (now : ℤ)
    (sub : ℤ → Except PyExc (ℤ × Trader × List TradeOrder))
    (hq : 0 < q) (ha : action ≠ TradeAction.hold) :
    (∀ e, sub (pyTrunc q) = Except.error e →
      (LiveTradeExecutor.execute_trade_async_core ex ticker action (some q) cp pf now sub).1 = 0 ∧
      (LiveTradeExecutor.execute_trade_async_core ex ticker action (some q) cp pf now sub).2.1.failed_trades =
        ex.failed_trades ++
          [{ timestamp := now, ticker := ticker, action := action, requested_qty := q,
             executed_qty := 0, price := cp, error := some e.str }]) ∧
    (∀ t placed, sub (pyTrunc q) = Except.ok (0, t, placed) →
      (LiveTradeExecutor.execute_trade_async_core ex ticker action (some q) cp pf now sub).1 = 0 ∧
      (LiveTradeExecutor.execute_trade_async_core ex ticker action (some q) cp pf now sub).2.1.failed_trades =
        ex.failed_trades ++
          [{ timestamp := now, ticker := ticker, action := action, requested_qty := q,
             executed_qty := 0, price := cp, error := none }]) ∧
    (∀ n t placed, sub (pyTrunc q) = Except.ok (n, t, placed) → 0 < n →
      (LiveTradeExecutor.execute_trade_async_core ex ticker action (some q) cp pf now sub).1 = n) ∧
    (LiveTradeExecutor.get_execution_report ex).recent_failures =
      ex.failed_trades.drop (ex.failed_trades.length - 10) ∧
    (LiveTradeExecutor.get_execution_report ex).recent_failures.length ≤ 10 := by
  refine ⟨?_, ?_, ?_, ?_, ?_⟩
  · intro e he
    constructor <;>
      simp [LiveTradeExecutor.execute_trade_async_core, he, hq.not_le, ha]
  · intro t placed hsub0
    constructor <;>
      simp [LiveTradeExecutor.execute_trade_async_core, hsub0, hq.not_le, ha]
  · intro n t placed hsubn hn
    simp [LiveTradeExecutor.execute_trade_async_core, hsubn, hq.not_le, ha, hn]
  · simp [LiveTradeExecutor.get_execution_report]
  · simp [LiveTradeExecutor.get_execution_report]
    omega

/-- C10 witness: a raising submission is converted to return value 0 and a
logged entry with the error text. -/
theorem C10_executor_never_raises_witness :
    (LiveTradeExecutor.execute_trade_async_core exDry "AAPL" TradeAction.buy
      (some 10) 150 pf0 0 subRaise).1 = 0 ∧
    (LiveTradeExecutor.execute_trade_async_core exDry "AAPL" TradeAction.buy
      (some 10) 150 pf0 0 subRaise).2.1.failed_trades =
      exDry.failed_trades ++
        [{ timestamp := 0, ticker := "AAPL", action := TradeAction.buy,
           requested_qty := 10, executed_qty := 0, price := 150,
           error := some "network down" }] :=
  (C10_executor_never_raises exDry "AAPL" TradeAction.buy 10 150 pf0 0 subRaise
    (by norm_num) (by decide)).1 (PyExc.other "network down") rfl

/-- Round-half-even of an integer-valued rational is that integer. -/
theorem pyRoundHalfEven_intCast (n : ℤ) : pyRoundHalfEven (n : ℚ) = n := by
  unfold pyRoundHalfEven
  norm_num [Int.floor_intCast]

/-- C9: the concentration scenario (portfolio value 100,000, limit 0.15,
projected position value 20,000). The arithmetic of the check body (the code
from the current-position lookup onward) computes 20% > 15% and produces a
HIGH-severity failure whose message names both percentages — but the check as
actually invoked never gets there: its first statement reads
`account_info.net_liquidation` (not a field of the `AccountInfo` dict, and a
dict has no attributes at all) before the `try`, so the call raises
`AttributeError` instead of rejecting the order. -/
theorem C9_concentration_check_result :
    RiskManager._check_position_concentration rmRisk orderConc accScenario [] =
      Except.error (PyExc.attributeError "net_liquidation") ∧
    RiskManager.concentrationBody rmRisk orderConc [] 100000 =
      (false, RiskLevel.HIGH, "Position concentration 20.0% exceeds limit 15.0%") := by
  constructor
  · simp [RiskManager._check_position_concentration, AccountInfo.attr]
  · have hpct1 : fmtPct1 ((1:ℚ)/5) = "20.0%" := by
      unfold fmtPct1
      rw [show ((1:ℚ)/5) * 1000 = ((200:ℤ):ℚ) by norm_num, pyRoundHalfEven_intCast]
      decide
    have hpct2 : fmtPct1 ((3:ℚ)/20) = "15.0%" := by
      unfold fmtPct1
      rw [show ((3:ℚ)/20) * 1000 = ((150:ℤ):ℚ) by norm_num, pyRoundHalfEven_intCast]
      decide
    simp [RiskManager.concentrationBody, rmRisk, orderConc, pyOrQ]
    norm_num
    rw [hpct1, hpct2]
    decide
